import Mathlib

/-!
Verification of the detection post-processing utilities of `src/utils.py`
(box parsing, multi-source merging, Non-Maximum Suppression, rendering).

The Python code is shallowly embedded over exact rationals:

* a whitespace token of one line of a `.txt` file is modelled by what the
  Python conversions `int()` and `float()` would return on it (`Token`);
* a file is a list of lines, each line a list of tokens;
* Python exceptions are modelled with `Except PyErr`;
* `cv2.dnn.NMSBoxes` is embedded following the OpenCV sources
  (`NMSFast_` with `eta = 1`, `top_k = 0`, `rectOverlap`): keep the
  `(score, index)` pairs with score strictly above the score threshold,
  stable-sort them by descending score, then greedily keep an index when
  its overlap with every previously kept index is at most the NMS
  threshold.  The `double` epsilon guard of `jaccardDistance` is modelled
  exactly as `≤ 0`.
-/

namespace Utils

/-- One detected object instance, fields in the order of the annotation
line format `class_index x_center y_center width height confidence`
(src/utils.py, `parse_boxes_from_txt`). -/
structure BoxRecord where
  class_index : Int
  x_center : ℚ
  y_center : ℚ
  width : ℚ
  height : ℚ
  confidence : ℚ
  deriving DecidableEq, Repr, Inhabited

/-- One whitespace-delimited token of an annotation line, modelled by what
the Python conversions would return on the underlying string: `asInt` is
`some n` when `int(tok)` succeeds with `n`, `asFloat` is `some q` when
`float(tok)` succeeds with `q`. -/
structure Token where
  asInt : Option Int
  asFloat : Option ℚ
  deriving DecidableEq, Repr

/-- The token written by Python `str` on an `int` value: both `int()` and
`float()` parse it back. -/
def intTok (n : Int) : Token := ⟨some n, some (n : ℚ)⟩

/-- The token written by Python `str` on a `float` value: `float(str(x))`
recovers `x` exactly (Python float reprs round-trip), while `int(str(x))`
always fails because the repr contains a dot or an exponent. -/
def floatTok (q : ℚ) : Token := ⟨none, some q⟩

/-- Python exceptions that the embedded code can raise. -/
inductive PyErr where
  | indexError
  | valueError
  | attributeError
  | cvError
  deriving DecidableEq, Repr

/-- Python list subscription `values[i]`: `IndexError` out of range. -/
def pyGetItem (values : List Token) (i : Nat) : Except PyErr Token :=
  match values.get? i with
  | some t => .ok t
  | none => .error .indexError

/-- Python `int(tok)`: `ValueError` when the token does not parse. -/
def pyInt (t : Token) : Except PyErr Int :=
  match t.asInt with
  | some n => .ok n
  | none => .error .valueError

/-- Python `float(tok)`: `ValueError` when the token does not parse. -/
def pyFloat (t : Token) : Except PyErr ℚ :=
  match t.asFloat with
  | some q => .ok q
  | none => .error .valueError

/-- Body of the `for line in file` loop of `parse_boxes_from_txt`
(src/utils.py lines 76-85): `values = line.split()` has already produced
the token list; the six subscriptions and conversions run in order and the
first failure raises. -/
def parseLine (values : List Token) : Except PyErr BoxRecord := do
  let class_index ← pyInt (← pyGetItem values 0)
  let x_center ← pyFloat (← pyGetItem values 1)
  let y_center ← pyFloat (← pyGetItem values 2)
  let width ← pyFloat (← pyGetItem values 3)
  let height ← pyFloat (← pyGetItem values 4)
  let confidence ← pyFloat (← pyGetItem values 5)
  .ok ⟨class_index, x_center, y_center, width, height, confidence⟩

/-- `parse_boxes_from_txt` (src/utils.py lines 70-86) on the token lines of
one file.  Every line of the file, blank lines included, goes through
`parseLine`; an exception aborts the whole call, otherwise the boxes are
returned in line order. -/
def parse_boxes_from_txt : List (List Token) → Except PyErr (List BoxRecord)
  | [] => .ok []
  | line :: rest => do
    let box ← parseLine line
    let boxes ← parse_boxes_from_txt rest
    .ok (box :: boxes)

/-- The line written for one box by the output step of `apply_nms_to_folder`
(src/utils.py lines 126-129): `" ".join(map(str, bbox))`, six tokens. -/
def encodeRecord (b : BoxRecord) : List Token :=
  [intTok b.class_index, floatTok b.x_center, floatTok b.y_center,
    floatTok b.width, floatTok b.height, floatTok b.confidence]

/-- Whole-file serialization: one line per record, in order. -/
def encodeFile (boxes : List BoxRecord) : List (List Token) :=
  boxes.map encodeRecord

/-- The exact condition under which `parseLine` succeeds: at least six
tokens, the first parseable as `int`, the next five parseable as `float`. -/
def lineWellFormed : List Token → Bool
  | t0 :: t1 :: t2 :: t3 :: t4 :: t5 :: _ =>
    t0.asInt.isSome && t1.asFloat.isSome && t2.asFloat.isSome &&
      t3.asFloat.isSome && t4.asFloat.isSome && t5.asFloat.isSome
  | _ => false

/-- Per-line body of `write_file_into_folder` (src/utils.py lines 33-43):
`columns = line.strip().split()`; when the line is non-empty and
`change_conf` is truthy (a Python float is truthy exactly when non-zero)
the last column is overwritten with `str(change_conf)`; the columns are
joined back and written. -/
def processLine (change_conf : ℚ) (columns : List Token) : List Token :=
  if columns ≠ [] ∧ change_conf ≠ 0 then columns.dropLast ++ [floatTok change_conf]
  else columns

/-- `write_file_into_folder` (src/utils.py lines 5-43) restricted to one
source file: the destination receives every processed line in order
(append mode onto whatever is already in the destination file). -/
def write_file_into_folder (change_conf : ℚ) (file : List (List Token)) :
    List (List Token) :=
  file.map (processLine change_conf)

/-- `merge_files_from_folders` (src/utils.py lines 46-68) for one base
name present in both folders: the first file is appended without change
(`change_conf` defaults to `0`), then the second file is appended with the
given `change_conf`. -/
def merge_files_from_folders (file1 file2 : List (List Token))
    (change_conf : ℚ) : List (List Token) :=
  write_file_into_folder 0 file1 ++ write_file_into_folder change_conf file2

/-- Axis-aligned rectangle in the `(x, y, width, height)` form of the
OpenCV `Rect2d` values that `cv2.dnn.NMSBoxes` receives. -/
structure Rect where
  x : ℚ
  y : ℚ
  w : ℚ
  h : ℚ
  deriving DecidableEq, Repr, Inhabited

/-- `Rect::area`. -/
def Rect.area (r : Rect) : ℚ := r.w * r.h

/-- Area of the OpenCV rectangle intersection `a & b`: empty (area `0`)
when either side length is non-positive. -/
def interArea (a b : Rect) : ℚ :=
  let iw := min (a.x + a.w) (b.x + b.w) - max a.x b.x
  let ih := min (a.y + a.h) (b.y + b.h) - max a.y b.y
  if iw ≤ 0 ∨ ih ≤ 0 then 0 else iw * ih

/-- OpenCV `rectOverlap a b = 1 - jaccardDistance(a, b)`: intersection
over union, with the degenerate guard of `jaccardDistance` (both areas
summing to nothing gives distance `0`, hence overlap `1`). -/
def rectOverlap (a b : Rect) : ℚ :=
  if a.area + b.area ≤ 0 then 1
  else interArea a b / (a.area + b.area - interArea a b)

/-- Order produced by `std::stable_sort` with the `SortScorePairDescend`
comparator on `(score, index)` pairs: descending score.  On the pairs fed
to it the indices are strictly increasing, so stability is equivalent to
breaking score ties by ascending index, which makes the order total. -/
def scoreLe (a b : ℚ × Nat) : Prop :=
  b.1 < a.1 ∨ (a.1 = b.1 ∧ a.2 ≤ b.2)

instance : DecidableRel scoreLe := fun a b => by
  unfold scoreLe; infer_instance

instance : IsTrans (ℚ × Nat) scoreLe where
  trans a b c hab hbc := by
    rcases hab with h1 | ⟨h1, h2⟩ <;> rcases hbc with h3 | ⟨h3, h4⟩
    · exact Or.inl (lt_trans h3 h1)
    · exact Or.inl (h3 ▸ h1)
    · exact Or.inl (lt_of_lt_of_le h3 (le_of_eq h1.symm))
    · exact Or.inr ⟨h1.trans h3, le_trans h2 h4⟩

instance : IsTotal (ℚ × Nat) scoreLe where
  total a b := by
    rcases lt_trichotomy a.1 b.1 with h | h | h
    · exact Or.inr (Or.inl h)
    · rcases le_total a.2 b.2 with h2 | h2
      · exact Or.inl (Or.inr ⟨h, h2⟩)
      · exact Or.inr (Or.inr ⟨h.symm, h2⟩)
    · exact Or.inl (Or.inl h)

instance : IsAntisymm (ℚ × Nat) scoreLe where
  antisymm a b hab hba := by
    rcases hab with h1 | ⟨h1, h2⟩ <;> rcases hba with h3 | ⟨h3, h4⟩
    · exact absurd h3 (lt_asymm h1)
    · exact absurd (h3 ▸ h1) (lt_irrefl _)
    · exact absurd (h1 ▸ h3) (lt_irrefl _)
    · exact Prod.ext h1 (le_antisymm h2 h4)

/-- `GetMaxScoreIndex` of OpenCV `NMSFast_`: the `(score, index)` pairs
whose score is strictly above the threshold, stable-sorted by descending
score.  `top_k = 0` keeps them all. -/
def getMaxScoreIndex (scores : List ℚ) (score_threshold : ℚ) :
    List (ℚ × Nat) :=
  List.insertionSort scoreLe
    (((List.range scores.length).map (fun i => (scores.getD i 0, i))).filter
      (fun p => decide (score_threshold < p.1)))

/-- Inner `for k` loop of `NMSFast_`: a candidate is kept when its overlap
with every already kept index is at most the NMS threshold (`eta = 1`, so
the adaptive threshold never changes). -/
def nmsKeep (bboxes : List Rect) (nms_threshold : ℚ) (kept : List Nat)
    (idx : Nat) : Bool :=
  kept.all (fun k =>
    decide (rectOverlap (bboxes.getD idx default) (bboxes.getD k default) ≤ nms_threshold))

/-- Outer loop of `NMSFast_`: scan the sorted candidates, appending each
kept index. -/
def nmsLoop (bboxes : List Rect) (nms_threshold : ℚ) :
    List (ℚ × Nat) → List Nat → List Nat
  | [], indices => indices
  | c :: rest, indices =>
    if nmsKeep bboxes nms_threshold indices c.2 then
      nmsLoop bboxes nms_threshold rest (indices ++ [c.2])
    else
      nmsLoop bboxes nms_threshold rest indices

/-- `cv2.dnn.NMSBoxes(bboxes, scores, score_threshold, nms_threshold)`
with the default `eta = 1.0` and `top_k = 0`: the kept indices, in the
order the greedy loop emitted them. -/
def NMSBoxes (bboxes : List Rect) (scores : List ℚ)
    (score_threshold nms_threshold : ℚ) : List Nat :=
  nmsLoop bboxes nms_threshold (getMaxScoreIndex scores score_threshold) []

/-- Per-file core of `apply_nms_to_folder` (src/utils.py lines 110-129):
line 113 builds the rectangles by unpacking each parsed box as
`[_, x1, y1, x2, y2, _]`, so the `(x_center, y_center, width, height)`
fields are handed to `NMSBoxes` unchanged; the returned list is the
content written for the file (nothing is written when it is empty). -/
def apply_nms_file (boxes : List BoxRecord)
    (score_threshold nms_threshold : ℚ) : List BoxRecord :=
  let bounding_boxes := boxes.map (fun b => Rect.mk b.x_center b.y_center b.width b.height)
  let confidence_scores := boxes.map (fun b => b.confidence)
  let indices := NMSBoxes bounding_boxes confidence_scores score_threshold nms_threshold
  indices.map (fun i => boxes.getD i default)

/-- Modelled from the spec: the conversion claimed for the suppression
step — each surviving record turned into the axis-aligned pixel corner box
`x_min = (x_center - width/2)*W`, `y_min = (y_center - height/2)*H`,
`x_max = (x_center + width/2)*W`, `y_max = (y_center + height/2)*H` using
the pixel dimensions `W`, `H` of the owning image — applied before the
same suppression loop.  `src/utils.py` contains no such conversion in
`apply_nms_to_folder`; this definition exists only to be compared with
`apply_nms_file`. -/
def apply_nms_file_asClaimed (W H : ℚ) (boxes : List BoxRecord)
    (score_threshold nms_threshold : ℚ) : List BoxRecord :=
  let bounding_boxes := boxes.map (fun b =>
    Rect.mk ((b.x_center - b.width / 2) * W) ((b.y_center - b.height / 2) * H)
      (b.width * W) (b.height * H))
  let confidence_scores := boxes.map (fun b => b.confidence)
  let indices := NMSBoxes bounding_boxes confidence_scores score_threshold nms_threshold
  indices.map (fun i => boxes.getD i default)

/-- `color_map` of `append_bboxes_to_image` (src/utils.py lines 155-163). -/
def color_map : Int → Option (Nat × Nat × Nat) := fun i =>
  if i = 0 then some (0, 255, 0)
  else if i = 1 then some (255, 0, 0)
  else if i = 2 then some (0, 0, 255)
  else if i = 3 then some (255, 255, 0)
  else if i = 4 then some (0, 255, 255)
  else if i = 5 then some (150, 0, 255)
  else none

/-- `class_map` of `append_bboxes_to_image` (src/utils.py lines 166-173). -/
def class_map : Int → Option String := fun i =>
  if i = 0 then some "Abnormal"
  else if i = 1 then some "Buah Busuk"
  else if i = 2 then some "Buah Lewat Masak"
  else if i = 3 then some "Buah Masak"
  else if i = 4 then some "Buah Mentah"
  else if i = 5 then some "Tandan Kosong"
  else none

/-- `color_map` of `append_bboxes_to_image2` (src/utils.py lines 222-230). -/
def color_map2 : Int → Option (Nat × Nat × Nat) := fun i =>
  if i = 0 then some (0, 255, 0)
  else if i = 1 then some (255, 0, 0)
  else if i = 3 then some (0, 0, 255)
  else if i = 2 then some (255, 255, 0)
  else if i = 4 then some (0, 255, 255)
  else if i = 5 then some (150, 0, 255)
  else none

/-- `class_map` of `append_bboxes_to_image2` (src/utils.py lines 233-240). -/
def class_map2 : Int → Option String := fun i =>
  if i = 0 then some "Abnormal bunch"
  else if i = 1 then some "Damaged bunch"
  else if i = 2 then some "Overripe bunch"
  else if i = 3 then some "Ripe bunch"
  else if i = 4 then some "Unripe bunch"
  else if i = 5 then some "Empty bunch"
  else none

/-- Python `int()` on a float truncates toward zero. -/
def pyTrunc (q : ℚ) : Int := if 0 ≤ q then ⌊q⌋ else ⌈q⌉

/-- Python `"{}".format(x)` on `x = class_map.get(class_index)`:
`dict.get` without a default returns `None` for a missing key, and
`format` renders `None` as the four-character string `None`. -/
def pyFormatOptStr : Option String → String
  | some s => s
  | none => "None"

/-- What one iteration of the drawing loop of the two render functions
paints for one box (src/utils.py lines 185-201 and 252-268): the pixel
rectangle, its color (the `dict.get` default is white), and the class-name
part of the label.  The string drawn by `cv2.putText` is
`labelText ++ " " ++ str(round(conf, 2))`; the confidence is kept
unrounded in the `conf` field. -/
structure DrawnBox where
  x_min : Int
  y_min : Int
  x_max : Int
  y_max : Int
  color : Nat × Nat × Nat
  labelText : String
  conf : ℚ
  deriving DecidableEq, Repr

/-- One iteration of the box-drawing loop, shared by
`append_bboxes_to_image` and `append_bboxes_to_image2`; `W = image.shape[1]`
and `H = image.shape[0]` are the pixel dimensions of the loaded image. -/
def drawBBox (colorMap : Int → Option (Nat × Nat × Nat))
    (classMap : Int → Option String) (W H : ℚ) (b : BoxRecord) : DrawnBox :=
  { x_min := pyTrunc ((b.x_center - b.width / 2) * W)
    y_min := pyTrunc ((b.y_center - b.height / 2) * H)
    x_max := pyTrunc ((b.x_center + b.width / 2) * W)
    y_max := pyTrunc ((b.y_center + b.height / 2) * H)
    color := (colorMap b.class_index).getD (255, 255, 255)
    labelText := pyFormatOptStr (classMap b.class_index)
    conf := b.confidence }

/-- A successfully loaded `cv2` image, reduced to what the render code
reads from it: `shape[1] = w` and `shape[0] = h`. -/
structure PyImage where
  w : Int
  h : Int
  deriving DecidableEq, Repr

/-- `append_bboxes_to_image2` (src/utils.py lines 207-271) applied to the
result of `cv2.imread`.  `imread` of a missing path returns `None`; the
first loop iteration then raises `AttributeError` at `image.shape`, and
with an empty box list the final `cv2.imwrite(path, None)` raises
`cv2.error`.  With a real image every box is drawn with the second
catalog and the rendered file is written. -/
def append_bboxes_to_image2 (image : Option PyImage)
    (bounding_boxes : List BoxRecord) : Except PyErr (List DrawnBox) :=
  match image with
  | none =>
    if bounding_boxes.isEmpty then .error .cvError else .error .attributeError
  | some im =>
    .ok (bounding_boxes.map (drawBBox color_map2 class_map2 (im.w : ℚ) (im.h : ℚ)))

/-- `apply_bboxes_to_images` (src/utils.py lines 274-299): for each
annotation file (base name and token lines, in directory order) parse the
boxes and render them onto the image found under the matching name
(`none` when no such image file exists).  No exception is caught anywhere
in the loop, so the first failing file aborts the whole run. -/
def apply_bboxes_to_images (images : String → Option PyImage) :
    List (String × List (List Token)) → Except PyErr (List (String × List DrawnBox))
  | [] => .ok []
  | (name, lines) :: rest => do
    let bboxes ← parse_boxes_from_txt lines
    let drawn ← append_bboxes_to_image2 (images name) bboxes
    let others ← apply_bboxes_to_images images rest
    .ok ((name, drawn) :: others)

/-- Concrete box used in counterexamples: class 0, centered at
`(0.5, 0.5)`, extent `0.2 × 0.2`, confidence `0.9`. -/
def boxA : BoxRecord := ⟨0, 1/2, 1/2, 1/5, 1/5, 9/10⟩

/-- Concrete box used in counterexamples: class 0, centered at
`(0.6, 0.6)`, extent `0.4 × 0.4`, confidence `0.8`.  Its true corner box
contains the one of `boxA` entirely (corner IoU `1/4`), but the rectangles
that line 113 of src/utils.py actually passes overlap barely
(IoU `1/19`). -/
def boxB : BoxRecord := ⟨0, 3/5, 3/5, 2/5, 2/5, 4/5⟩

/-- A line of five tokens `0 0.5 0.5 0.2 0.2` — a record without a
confidence field. -/
def fiveTokenLine : List Token :=
  [intTok 0, floatTok (1/2), floatTok (1/2), floatTok (1/5), floatTok (1/5)]

/-- Concrete box whose class index `99` is absent from both catalogs. -/
def box99 : BoxRecord := ⟨99, 1/2, 1/2, 1/5, 1/5, 9/10⟩

theorem processLine_zero (columns : List Token) : processLine 0 columns = columns := by
  simp [processLine]

theorem write_file_into_folder_zero (file : List (List Token)) :
    write_file_into_folder 0 file = file :=
  (List.map_congr_left (fun l _ => processLine_zero l)).trans (List.map_id file)

theorem processLine_encodeRecord (c : ℚ) (b : BoxRecord) :
    processLine c (encodeRecord b) =
      encodeRecord (if c = 0 then b else { b with confidence := c }) := by
  by_cases hc : c = 0
  · simp [hc, processLine_zero]
  · simp [processLine, encodeRecord, hc]

theorem parseLine_encodeRecord (b : BoxRecord) :
    parseLine (encodeRecord b) = .ok b := rfl

theorem parseLine_isOk (values : List Token) :
    (parseLine values).isOk = lineWellFormed values := by
  rcases values with _ |
    ⟨⟨i0, f0⟩, _ | ⟨⟨i1, f1⟩, _ | ⟨⟨i2, f2⟩, _ | ⟨⟨i3, f3⟩, _ | ⟨⟨i4, f4⟩, _ | ⟨⟨i5, f5⟩, rest⟩⟩⟩⟩⟩⟩
  · rfl
  · cases i0 <;> rfl
  · cases i0 <;> cases f1 <;> rfl
  · cases i0 <;> cases f1 <;> cases f2 <;> rfl
  · cases i0 <;> cases f1 <;> cases f2 <;> cases f3 <;> rfl
  · cases i0 <;> cases f1 <;> cases f2 <;> cases f3 <;> cases f4 <;> rfl
  · cases i0 <;> cases f1 <;> cases f2 <;> cases f3 <;> cases f4 <;> cases f5 <;> rfl

theorem parse_isOk_all (lines : List (List Token)) :
    (parse_boxes_from_txt lines).isOk = lines.all lineWellFormed := by
  induction lines with
  | nil => rfl
  | cons l ls ih =>
    rw [List.all_cons, ← ih, ← parseLine_isOk]
    cases h1 : parseLine l <;> cases h2 : parse_boxes_from_txt ls <;>
      simp [parse_boxes_from_txt, h1, h2, Except.isOk, Except.toBool, Except.bind,
        bind, Except.instMonad]

/-- C2 counterexample: a line of exactly five tokens makes
`parse_boxes_from_txt` raise `IndexError` (the claim says it is
accepted), and so does a blank line (the claim says it is skipped). -/
theorem parse_five_token_line_counterexample :
    parse_boxes_from_txt [fiveTokenLine] = .error .indexError ∧
      parse_boxes_from_txt [[]] = .error .indexError := ⟨rfl, rfl⟩

/-- C2 (amended): decoding fails exactly when some line — blank lines
included — has fewer than six whitespace tokens or one of its first six
tokens does not parse as its expected numeric type (`int` for the first,
`float` for the next five).  A five-token line is rejected, not accepted,
and blank lines raise rather than being skipped. -/
theorem parse_fails_iff_some_line_malformed (lines : List (List Token)) :
    (parse_boxes_from_txt lines).isOk = lines.all lineWellFormed :=
  parse_isOk_all lines

/-- C2 witness: a file of one well-formed six-token line decodes, and the
characterization evaluates on it. -/
theorem parse_fails_iff_some_line_malformed_witness :
    (parse_boxes_from_txt [encodeRecord boxA]).isOk = [encodeRecord boxA].all lineWellFormed :=
  parse_fails_iff_some_line_malformed [encodeRecord boxA]

/-- C6: decoding the text written by the encoder reproduces the records
exactly, in order — `decode(encode(s)) = s`. -/
theorem decode_encode_roundtrip (s : List BoxRecord) :
    parse_boxes_from_txt (encodeFile s) = .ok s := by
  induction s with
  | nil => rfl
  | cons b bs ih =>
    show parse_boxes_from_txt (encodeRecord b :: encodeFile bs) = .ok (b :: bs)
    simp [parse_boxes_from_txt, parseLine_encodeRecord, ih, Except.bind, bind,
      Except.instMonad]

/-- C6 witness: the round-trip evaluated on a concrete two-record set. -/
theorem decode_encode_roundtrip_witness :
    parse_boxes_from_txt (encodeFile [boxA, boxB]) = .ok [boxA, boxB] :=
  decode_encode_roundtrip [boxA, boxB]

/-- C3: the merged file is every primary record unchanged, then every
secondary record in order; with a non-sentinel override (`c ≠ 0`) exactly
the confidence field of each secondary record is replaced by `c`, and with
the sentinel (`c = 0`, the default) the secondary records pass through
unchanged. -/
theorem merge_primary_then_overridden_secondary (p s : List BoxRecord) (c : ℚ) :
    merge_files_from_folders (encodeFile p) (encodeFile s) c =
      encodeFile (p ++ s.map (fun r => if c = 0 then r else { r with confidence := c })) := by
  unfold merge_files_from_folders
  rw [write_file_into_folder_zero]
  unfold encodeFile
  rw [List.map_append]
  congr 1
  unfold write_file_into_folder
  rw [List.map_map, List.map_map]
  exact List.map_congr_left (fun r _ => processLine_encodeRecord c r)

/-- C3 witness: a concrete merge with override `1/10` replaces exactly the
confidence of the secondary record. -/
theorem merge_primary_then_overridden_secondary_witness :
    merge_files_from_folders (encodeFile [boxA]) (encodeFile [boxB]) (1/10) =
      encodeFile ([boxA] ++ [boxB].map (fun r =>
        if (1/10 : ℚ) = 0 then r else { r with confidence := 1/10 })) :=
  merge_primary_then_overridden_secondary [boxA] [boxB] (1/10)

/-- C9: the override value `0` is the no-override sentinel — Python tests
`change_conf` for truthiness, and `0` is falsy — so merging with `0`
appends both files entirely unchanged and no confidence is set to `0`. -/
theorem merge_zero_override_is_identity (file1 file2 : List (List Token)) :
    merge_files_from_folders file1 file2 0 = file1 ++ file2 := by
  simp [merge_files_from_folders, write_file_into_folder_zero]

/-- C9 witness: merging two concrete files with override `0` is plain
concatenation. -/
theorem merge_zero_override_is_identity_witness :
    merge_files_from_folders [encodeRecord boxA] [fiveTokenLine] 0 =
      [encodeRecord boxA] ++ [fiveTokenLine] :=
  merge_zero_override_is_identity [encodeRecord boxA] [fiveTokenLine]

/-- C10: with a non-zero override the last whitespace token of every
non-empty secondary line is overwritten, whatever it is; a five-token
line (no confidence field) gets its height token overwritten and keeps
five tokens — no confidence field is appended. -/
theorem merge_override_replaces_last_token (p s : List (List Token)) (c : ℚ)
    (hc : c ≠ 0) :
    merge_files_from_folders p s c =
      p ++ s.map (fun cols =>
        if cols = [] then cols else cols.dropLast ++ [floatTok c]) := by
  unfold merge_files_from_folders
  rw [write_file_into_folder_zero]
  congr 1
  refine List.map_congr_left (fun cols _ => ?_)
  by_cases h : cols = [] <;> simp [processLine, h, hc]

/-- C10 witness: overriding with `3/10` a secondary line of five tokens
`0 0.5 0.5 0.2 0.2` overwrites the height token `0.2` with `0.3` and
appends nothing. -/
theorem merge_override_replaces_last_token_witness :
    (3/10 : ℚ) ≠ 0 ∧
      merge_files_from_folders [] [fiveTokenLine] (3/10) =
        [[intTok 0, floatTok (1/2), floatTok (1/2), floatTok (1/5), floatTok (3/10)]] :=
  ⟨by norm_num,
    (merge_override_replaces_last_token [] [fiveTokenLine] (3/10) (by norm_num)).trans
      (by simp [fiveTokenLine])⟩

theorem nmsLoop_acc_append (bboxes : List Rect) (nt : ℚ) :
    ∀ (cands : List (ℚ × Nat)) (acc : List Nat),
      ∃ s : List (ℚ × Nat), s.Sublist cands ∧
        nmsLoop bboxes nt cands acc = acc ++ s.map (fun p => p.2) := by
  intro cands
  induction cands with
  | nil =>
    intro acc
    exact ⟨[], List.Sublist.refl [], by simp [nmsLoop]⟩
  | cons c rest ih =>
    intro acc
    cases hk : nmsKeep bboxes nt acc c.2
    · obtain ⟨s, hs, he⟩ := ih acc
      exact ⟨s, hs.cons c, by simp [nmsLoop, hk, he]⟩
    · obtain ⟨s, hs, he⟩ := ih (acc ++ [c.2])
      refine ⟨c :: s, hs.cons₂ c, ?_⟩
      simp [nmsLoop, hk, he]

theorem nmsLoop_append (bboxes : List Rect) (nt : ℚ) :
    ∀ (c1 c2 : List (ℚ × Nat)) (acc : List Nat),
      nmsLoop bboxes nt (c1 ++ c2) acc =
        nmsLoop bboxes nt c2 (nmsLoop bboxes nt c1 acc) := by
  intro c1
  induction c1 with
  | nil => intro c2 acc; rfl
  | cons c rest ih =>
    intro c2 acc
    cases hk : nmsKeep bboxes nt acc c.2 <;> simp [nmsLoop, hk, ih]

theorem getMaxScoreIndex_sorted (scores : List ℚ) (t : ℚ) :
    List.Sorted scoreLe (getMaxScoreIndex scores t) :=
  List.sorted_insertionSort scoreLe _

theorem mem_getMaxScoreIndex {scores : List ℚ} {t : ℚ} {p : ℚ × Nat}
    (hp : p ∈ getMaxScoreIndex scores t) :
    p.2 < scores.length ∧ scores.getD p.2 0 = p.1 ∧ t < p.1 := by
  unfold getMaxScoreIndex at hp
  rw [List.mem_insertionSort, List.mem_filter] at hp
  obtain ⟨hmem, hlt⟩ := hp
  rw [List.mem_map] at hmem
  obtain ⟨i, hi, rfl⟩ := hmem
  rw [List.mem_range] at hi
  exact ⟨hi, rfl, of_decide_eq_true hlt⟩

theorem confidence_getD_map (boxes : List BoxRecord) (i : Nat)
    (h : i < boxes.length) :
    (boxes.map (fun b => b.confidence)).getD i 0 =
      (boxes.getD i default).confidence := by
  rw [List.getD_eq_getElem _ _ (by simpa using h), List.getD_eq_getElem _ _ h,
    List.getElem_map]

theorem insertionSort_split (L : List (ℚ × Nat)) (q : ℚ × Nat → Bool)
    (hq : ∀ a b, q a = true → q b = false → scoreLe a b) :
    List.insertionSort scoreLe L =
      List.insertionSort scoreLe (L.filter q) ++
        List.insertionSort scoreLe (L.filter (fun x => !q x)) := by
  refine List.eq_of_perm_of_sorted ?_ (List.sorted_insertionSort scoreLe L) ?_
  · exact (List.perm_insertionSort scoreLe L).trans
      ((List.filter_append_perm q L).symm.trans
        ((List.perm_insertionSort scoreLe (L.filter q)).symm.append
          (List.perm_insertionSort scoreLe (L.filter (fun x => !q x))).symm))
  · refine List.pairwise_append.mpr
      ⟨List.sorted_insertionSort scoreLe _, List.sorted_insertionSort scoreLe _, ?_⟩
    intro a ha b hb
    rw [List.mem_insertionSort, List.mem_filter] at ha hb
    exact hq a b ha.2 (by simpa using hb.2)

theorem getMaxScoreIndex_split (scores : List ℚ) (t1 t2 : ℚ) (h : t1 ≤ t2) :
    getMaxScoreIndex scores t1 =
      getMaxScoreIndex scores t2 ++
        List.insertionSort scoreLe
          ((((List.range scores.length).map (fun i => (scores.getD i 0, i))).filter
              (fun p => decide (t1 < p.1))).filter (fun p => !decide (t2 < p.1))) := by
  have hcross : ∀ a b : ℚ × Nat, decide (t2 < a.1) = true →
      decide (t2 < b.1) = false → scoreLe a b := by
    intro a b ha hb
    exact Or.inl (lt_of_le_of_lt (le_of_not_lt (of_decide_eq_false hb)) (of_decide_eq_true ha))
  unfold getMaxScoreIndex
  rw [insertionSort_split
    (((List.range scores.length).map (fun i => (scores.getD i 0, i))).filter
      (fun p => decide (t1 < p.1))) (fun p => decide (t2 < p.1)) hcross]
  congr 1
  rw [List.filter_filter]
  congr 1
  refine List.filter_congr (fun p _ => ?_)
  by_cases hp : t2 < p.1
  · have h1 : t1 < p.1 := lt_of_le_of_lt h hp
    simp [hp, h1]
  · simp [hp]

/-- C7: the records written by the suppression step appear in the order
the greedy loop emitted them, which is non-increasing in confidence
(survivors of higher confidence come first), not in input-file order. -/
theorem nms_output_confidence_descending (boxes : List BoxRecord) (st nt : ℚ) :
    List.Pairwise (fun a b : BoxRecord => b.confidence ≤ a.confidence)
      (apply_nms_file boxes st nt) := by
  obtain ⟨s, hsub, he⟩ := nmsLoop_acc_append
    (boxes.map (fun b => Rect.mk b.x_center b.y_center b.width b.height)) nt
    (getMaxScoreIndex (boxes.map (fun b => b.confidence)) st) []
  simp only [apply_nms_file, NMSBoxes]
  rw [he, List.nil_append, List.map_map]
  rw [List.pairwise_map]
  have hsorted : List.Pairwise scoreLe s :=
    List.Pairwise.sublist hsub (getMaxScoreIndex_sorted _ _)
  refine List.Pairwise.imp_of_mem ?_ hsorted
  intro a b ha hb hab
  obtain ⟨hal, hae, _⟩ := mem_getMaxScoreIndex (hsub.subset ha)
  obtain ⟨hbl, hbe, _⟩ := mem_getMaxScoreIndex (hsub.subset hb)
  rw [List.length_map] at hal hbl
  rw [confidence_getD_map _ _ hal] at hae
  rw [confidence_getD_map _ _ hbl] at hbe
  show (boxes.getD b.2 default).confidence ≤ (boxes.getD a.2 default).confidence
  rw [hae, hbe]
  rcases hab with h | ⟨h, _⟩
  · exact le_of_lt h
  · exact le_of_eq h.symm

/-- C7 witness: evaluated on a concrete input. -/
theorem nms_output_confidence_descending_witness :
    List.Pairwise (fun a b : BoxRecord => b.confidence ≤ a.confidence)
      (apply_nms_file [boxA, boxB] (1/20) (1/5)) :=
  nms_output_confidence_descending [boxA, boxB] (1/20) (1/5)

/-- C8: for a fixed input and fixed NMS threshold, raising the score
threshold never increases the number of surviving boxes.  The score
filter drops a suffix of the descending-sorted candidate list, and the
greedy decisions for the remaining prefix are unchanged. -/
theorem nms_score_threshold_monotone (boxes : List BoxRecord) (nt t1 t2 : ℚ)
    (h : t1 ≤ t2) :
    (apply_nms_file boxes t2 nt).length ≤ (apply_nms_file boxes t1 nt).length := by
  simp only [apply_nms_file, NMSBoxes, List.length_map]
  rw [getMaxScoreIndex_split (boxes.map (fun b => b.confidence)) t1 t2 h]
  rw [nmsLoop_append]
  obtain ⟨s, _, he⟩ := nmsLoop_acc_append
    (boxes.map (fun b => Rect.mk b.x_center b.y_center b.width b.height)) nt
    (List.insertionSort scoreLe
      ((((List.range (boxes.map (fun b => b.confidence)).length).map
          (fun i => ((boxes.map (fun b => b.confidence)).getD i 0, i))).filter
        (fun p => decide (t1 < p.1))).filter (fun p => !decide (t2 < p.1))))
    (nmsLoop (boxes.map (fun b => Rect.mk b.x_center b.y_center b.width b.height)) nt
      (getMaxScoreIndex (boxes.map (fun b => b.confidence)) t2) [])
  rw [he, List.length_append]
  exact Nat.le_add_right _ _

/-- C8 witness: concrete thresholds `1/20 ≤ 17/20` on a concrete input. -/
theorem nms_score_threshold_monotone_witness :
    (1/20 : ℚ) ≤ 17/20 ∧
      (apply_nms_file [boxA, boxB] (17/20) (1/5)).length ≤
        (apply_nms_file [boxA, boxB] (1/20) (1/5)).length :=
  ⟨by norm_num, nms_score_threshold_monotone [boxA, boxB] (1/5) (1/20) (17/20) (by norm_num)⟩

/-- C1: failing input for the claimed corner conversion.  On
`[boxA, boxB]` with score threshold `1/20` and IoU threshold `1/5`, the
code keeps both boxes: line 113 of src/utils.py hands
`(x_center, y_center, width, height)` to `NMSBoxes` unchanged, and those
rectangles have IoU `1/19 ≤ 1/5`.  Had the records been converted to
pixel corner boxes of a `100 × 100` image as the claim states, the corner
IoU would be `1/4 > 1/5` and `boxB` would be suppressed. -/
theorem nms_operates_on_raw_fields_failing_input :
    apply_nms_file [boxA, boxB] (1/20) (1/5) = [boxA, boxB] ∧
      apply_nms_file_asClaimed 100 100 [boxA, boxB] (1/20) (1/5) = [boxA] := by
  constructor <;>
    norm_num [apply_nms_file, apply_nms_file_asClaimed, NMSBoxes, getMaxScoreIndex,
      nmsLoop, nmsKeep, rectOverlap, interArea, Rect.area, scoreLe, boxA, boxB,
      List.insertionSort, List.orderedInsert, List.range_succ]

/-- C4 counterexample: the render fallback for the catalog-absent class
`99` draws the four-character string `None` (Python `str(None)`) as the
class-name part of the label — not an empty label string. -/
theorem render_unknown_class_label_counterexample :
    (drawBBox color_map2 class_map2 100 100 box99).labelText = "None" ∧
      "None" ≠ "" := by
  exact ⟨rfl, by decide⟩

/-- C4 (amended): a box whose class index is absent from the catalogs
renders without raising, with the default white color, and with the
string `None` as the class-name part of the label (followed by the
rounded confidence) — `class_map.get` returns `None` and `format` prints
it as `None`, not as an empty string. -/
theorem render_unknown_class_white_and_none
    (cm : Int → Option (Nat × Nat × Nat)) (lm : Int → Option String)
    (W H : ℚ) (b : BoxRecord)
    (hcm : cm b.class_index = none) (hlm : lm b.class_index = none) :
    (drawBBox cm lm W H b).color = (255, 255, 255) ∧
      (drawBBox cm lm W H b).labelText = "None" := by
  simp [drawBBox, hcm, hlm, pyFormatOptStr]

/-- C4 witness: class `99` with both catalogs of
`append_bboxes_to_image2`. -/
theorem render_unknown_class_white_and_none_witness :
    (drawBBox color_map2 class_map2 100 100 box99).color = (255, 255, 255) ∧
      (drawBBox color_map2 class_map2 100 100 box99).labelText = "None" :=
  render_unknown_class_white_and_none color_map2 class_map2 100 100 box99 rfl rfl

/-- C5 counterexample: a single annotation file with no matching image
makes the batch render run raise `AttributeError` — `cv2.imread` returns
`None` and the drawing loop dereferences it — rather than being silently
skipped with the run continuing. -/
theorem missing_image_raises_counterexample :
    apply_bboxes_to_images (fun _ => none) [("a", [encodeRecord boxA])] =
      .error .attributeError := rfl

/-- C5 (amended): an annotation file whose matching image is missing
aborts the batch render run with an exception — `AttributeError` when the
file holds records (`image.shape` on `None`), `cv2.error` when it holds
none (`cv2.imwrite` of `None`) — and no output is produced; nothing is
skipped silently. -/
theorem missing_image_aborts_run (images : String → Option PyImage)
    (name : String) (lines : List (List Token))
    (rest : List (String × List (List Token)))
    (h : images name = none) :
    (apply_bboxes_to_images images ((name, lines) :: rest)).isOk = false := by
  cases hp : parse_boxes_from_txt lines with
  | error e =>
    simp [apply_bboxes_to_images, hp, Except.isOk, Except.toBool, Except.bind,
      bind, Except.instMonad]
  | ok boxes =>
    cases hb : boxes.isEmpty <;>
      simp [apply_bboxes_to_images, hp, h, append_bboxes_to_image2, hb,
        Except.isOk, Except.toBool, Except.bind, bind, Except.instMonad]

/-- C5 witness: concrete one-file run with no image available. -/
theorem missing_image_aborts_run_witness :
    ((fun _ : String => (none : Option PyImage)) "a" = none) ∧
      (apply_bboxes_to_images (fun _ => none) [("a", [fiveTokenLine])]).isOk = false :=
  ⟨rfl, missing_image_aborts_run (fun _ => none) "a" [fiveTokenLine] [] rfl⟩

end Utils
